import Mathlib

/-!
Verification of the klipper load-cell ADC sampling drivers:
the bit-banged HX711/HX717 driver (sensor_hx71x), the ADS1220 SPI driver
(sensor_ads1220.c) and the ADS1256 SPI driver (sensor_ads1256).

The C sources are shallowly embedded: each driver poll function becomes a
pure Lean function from an explicit sensor state and a poll environment
(the values the hardware pins / SPI bus return during that poll) to the new
sensor state, the list of bulk reports emitted to the host, and an outcome
describing what the poll did.  Machine integers are modelled as Nat / Int
with explicit truncation where the C code truncates.
-/

namespace Klipper

/-- One 32-bit sample slot is 4 bytes (BYTES_PER_SAMPLE in all three files). -/
def BYTES_PER_SAMPLE : Nat := 4

/-- SAMPLE_ERROR sentinel value 0x80000000 (same constant in hx71x and ads1220). -/
def SAMPLE_ERROR : Nat := 0x80000000

/-- Modelled from the spec: struct sensor_bulk (sensor_bulk.h is not part of
the repository sources).  It holds a fixed-capacity byte array, the number of
bytes currently filled, and the side field possible_overflows that carries the
error code of an error record.  The capacity is the length of the data list. -/
structure SensorBulk where
  possible_overflows : Nat
  data_count : Nat
  data : List Nat
deriving Repr, DecidableEq

/-- A bulk report delivered to the host: snapshot of the buffer contents, the
number of valid bytes and the side field at the moment of the report. -/
structure Report where
  data : List Nat
  data_count : Nat
  possible_overflows : Nat
deriving Repr, DecidableEq

/-- Modelled from the spec: sensor_bulk_report (sensor_bulk.c is not part of
the repository sources).  Per the spec, a flush delivers the accumulated
sample buffer to the host and resets its fill count to zero. -/
def sensor_bulk_report (sb : SensorBulk) : SensorBulk × Report :=
  ({ sb with data_count := 0 },
   { data := sb.data, data_count := sb.data_count,
     possible_overflows := sb.possible_overflows })

/-- Modelled from the spec: sensor_bulk_reset (sensor_bulk.c is not part of
the repository sources).  Starting a new measurement resets the sample
buffer: fill count and the overflow side field return to zero. -/
def sensor_bulk_reset (sb : SensorBulk) : SensorBulk :=
  { sb with data_count := 0, possible_overflows := 0 }

/-- Conversion of a signed 32-bit C value to the unsigned 32-bit pattern it
converts to (uint_fast32_t parameter of add_sample). -/
def u32ofInt (c : Int) : Nat := (c % 2 ^ 32).toNat

/-- Reading of an unsigned 32-bit pattern as a signed int32_t value. -/
def toSigned32 (x : Nat) : Int :=
  if x % 2 ^ 32 < 2 ^ 31 then (x % 2 ^ 32 : Nat) else (x % 2 ^ 32 : Nat) - 2 ^ 32

/-- add_sample: identical static function in all three driver files.  The four
little-endian bytes of counts are stored at data_count .. data_count + 3 and
the fill count advances by BYTES_PER_SAMPLE. -/
def add_sample (sb : SensorBulk) (counts : Nat) : SensorBulk :=
  { sb with
    data := ((((sb.data.set sb.data_count (counts % 2 ^ 8)).set
        (sb.data_count + 1) (counts / 2 ^ 8 % 2 ^ 8)).set
        (sb.data_count + 2) (counts / 2 ^ 16 % 2 ^ 8)).set
        (sb.data_count + 3) (counts / 2 ^ 24 % 2 ^ 8)),
    data_count := sb.data_count + BYTES_PER_SAMPLE }

/-- flush_samples: identical static function in all three driver files.  It
reports (drains) the buffer whenever one more sample would no longer fit. -/
def flush_samples (sb : SensorBulk) : SensorBulk × List Report :=
  if sb.data_count + BYTES_PER_SAMPLE > sb.data.length then
    let out := sensor_bulk_report sb
    (out.1, [out.2])
  else (sb, [])

/-- Buffer part of send_error (hx71x and ads1220): append the SAMPLE_ERROR
sentinel, store the error code in the side field, and report unconditionally. -/
def send_error_sb (sb : SensorBulk) (error_code : Nat) : SensorBulk × Report :=
  let sb1 := add_sample sb SAMPLE_ERROR
  let sb2 := { sb1 with possible_overflows := error_code }
  sensor_bulk_report sb2

/-- Outcome of one invocation of a driver poll function. -/
inductive PollOutcome where
  | deferred
  | errorRecord (code : Nat)
  | sample (counts : Int)
  | fatal (msg : String)
deriving Repr, DecidableEq

end Klipper

namespace Klipper.Hx71x

def ERROR_READY_AFTER_READ : Nat := 1
def ERROR_READ_TOO_LONG : Nat := 2
def ERROR_OUT_OF_RANGE : Nat := 3

/-- State of struct hx71x_adc together with the scheduler facts the claims
need: whether the timer of this sensor is currently scheduled, and the level
written to the sclk pin (power-down control). -/
structure State where
  gain_channel : Nat
  pending_flag : Bool
  rest_ticks : Nat
  timer_armed : Bool
  sclk : Bool
  sb : SensorBulk
deriving Repr, DecidableEq

/-- Environment of one poll: dout k is the level of the dout pin at its k-th
read during this poll (read 0 is the readiness check, reads 1..24 are the bit
loop, read 25 is the post-read readiness check), and elapsed is the measured
read duration timer_read_time() - start_time in ticks. -/
structure Env where
  dout : Nat → Bool
  elapsed : Nat

/-- hx71x_is_data_ready: the sample is ready when the dout pin reads low. -/
def is_data_ready (pin : Bool) : Bool := !pin

/-- hx71x_event: the timer interrupt sets the pending flag and wakes the
task; it returns SF_DONE, so the timer is no longer scheduled. -/
def event (s : State) : State :=
  { s with pending_flag := true, timer_armed := false }

/-- hx71x_reschedule_timer: schedule the timer rest_ticks from now. -/
def reschedule_timer (s : State) : State := { s with timer_armed := true }

/-- The 24-bit bit-bang loop: counts = (counts << 1) | gpio_in_read(dout),
24 times, over dout reads 1..24. -/
def read_bits (dout : Nat → Bool) : Nat :=
  (List.range 24).foldl (fun acc i => 2 * acc + (if dout (1 + i) then 1 else 0)) 0

/-- Decode step of hx71x_read_adc: the raw 24-bit accumulator is mapped to 0
at the midpoint 0x800000 and sign-extended by counts |= 0xFF000000 above it. -/
def decode (v : Nat) : Int :=
  if (v : Int) = 0x800000 then 0
  else if (v : Int) > 0x800000 then toSigned32 (v ||| 0xFF000000)
  else (v : Int)

/-- send_error: clear pending, append the sentinel with the error code and
report immediately. -/
def send_error (s : State) (error_code : Nat) : State × List Report × PollOutcome :=
  let out := send_error_sb s.sb error_code
  ({ s with pending_flag := false, sb := out.1 }, [out.2],
   .errorRecord error_code)

/-- hx71x_read_adc, with MAX_READ_TIME passed explicitly as max (its value
timer_from_us(50) is platform dependent). -/
def read_adc (max : Nat) (s : State) (env : Env) : State × List Report × PollOutcome :=
  if !(is_data_ready (env.dout 0)) then
    (reschedule_timer s, [], .deferred)
  else if is_data_ready (env.dout 25) then
    send_error s ERROR_READY_AFTER_READ
  else if env.elapsed ≥ max then
    send_error s ERROR_READ_TOO_LONG
  else
    let counts := decode (read_bits env.dout)
    if counts < -0x7FFFFF ∨ counts > 0x7FFFFF then
      send_error s ERROR_OUT_OF_RANGE
    else
      let sb1 := add_sample s.sb (u32ofInt counts)
      let out := flush_samples sb1
      (reschedule_timer { s with pending_flag := false, sb := out.1 },
       out.2, .sample counts)

/-- command_query_hx71x: delete the timer, clear pending, store rest_ticks;
zero rest_ticks powers the chip down (sclk high) and ends measurements,
nonzero wakes the chip, resets the buffer and reschedules. -/
def command_query (s : State) (rest_ticks : Nat) : State :=
  let s1 := { s with timer_armed := false, pending_flag := false,
                     rest_ticks := rest_ticks }
  if rest_ticks = 0 then
    { s1 with sclk := true }
  else
    reschedule_timer { s1 with sclk := false, sb := sensor_bulk_reset s1.sb }

end Klipper.Hx71x

namespace Klipper.Ads1220

def ERROR_READ_TOO_LONG : Nat := 1
def ERROR_OUT_OF_RANGE : Nat := 2

/-- State of struct ads1220_adc together with the timer-armed scheduler fact. -/
structure State where
  pending_flag : Bool
  rest_ticks : Nat
  timer_armed : Bool
  sb : SensorBulk
deriving Repr, DecidableEq

/-- Environment of one poll: the level of the data_ready pin, the three bytes
the SPI transfer places in msg, and the measured transfer duration. -/
structure Env where
  data_ready_pin : Bool
  msg0 : Nat
  msg1 : Nat
  msg2 : Nat
  elapsed : Nat

/-- ads1220_is_data_ready: ready when gpio_in_read(data_ready) == 0. -/
def is_data_ready (pin : Bool) : Bool := !pin

/-- ads1220_event: set pending, wake the task, return SF_DONE. -/
def event (s : State) : State :=
  { s with pending_flag := true, timer_armed := false }

/-- ads1220_reschedule_timer. -/
def reschedule_timer (s : State) : State := { s with timer_armed := true }

/-- 24-bit big-endian word from the three uint8_t SPI bytes:
(msg[0] << 16) | (msg[1] << 8) | msg[2]. -/
def raw_word (e : Env) : Nat :=
  ((e.msg0 % 2 ^ 8) <<< 16) ||| ((e.msg1 % 2 ^ 8) <<< 8) ||| (e.msg2 % 2 ^ 8)

/-- Decode step of ads1220_read_adc: identical midpoint and sign-extension
rules to the hx71x driver. -/
def decode (v : Nat) : Int :=
  if (v : Int) = 0x800000 then 0
  else if (v : Int) > 0x800000 then toSigned32 (v ||| 0xFF000000)
  else (v : Int)

/-- send_error of sensor_ads1220.c. -/
def send_error (s : State) (error_code : Nat) : State × List Report × PollOutcome :=
  let out := send_error_sb s.sb error_code
  ({ s with pending_flag := false, sb := out.1 }, [out.2],
   .errorRecord error_code)

/-- ads1220_read_adc, with MAX_SPI_READ_TIME passed explicitly as max. -/
def read_adc (max : Nat) (s : State) (env : Env) : State × List Report × PollOutcome :=
  if !(is_data_ready env.data_ready_pin) then
    (reschedule_timer s, [], .deferred)
  else if env.elapsed ≥ max then
    send_error s ERROR_READ_TOO_LONG
  else
    let counts := decode (raw_word env)
    if counts < -0x7FFFFF ∨ counts > 0x7FFFFF then
      send_error s ERROR_OUT_OF_RANGE
    else
      let sb1 := add_sample s.sb (u32ofInt counts)
      let out := flush_samples sb1
      (reschedule_timer { s with pending_flag := false, sb := out.1 },
       out.2, .sample counts)

/-- command_query_ads1220: delete the timer, clear pending, store rest_ticks;
zero ends measurements, nonzero resets the buffer and reschedules. -/
def command_query (s : State) (rest_ticks : Nat) : State :=
  let s1 := { s with timer_armed := false, pending_flag := false,
                     rest_ticks := rest_ticks }
  if rest_ticks = 0 then s1
  else reschedule_timer { s1 with sb := sensor_bulk_reset s1.sb }

end Klipper.Ads1220

namespace Klipper.Ads1256

/-- State of struct ads1256_adc: the FLAG_PENDING bit of flags, the
timer-armed scheduler fact, and whether a load-cell endstop is attached. -/
structure State where
  pending_flag : Bool
  rest_ticks : Nat
  timer_armed : Bool
  lce : Bool
  sb : SensorBulk
deriving Repr, DecidableEq

/-- Environment of one poll, as for the ads1220 driver. -/
structure Env where
  data_ready_pin : Bool
  msg0 : Nat
  msg1 : Nat
  msg2 : Nat
  elapsed : Nat

/-- ads1256_is_data_ready: ready when gpio_in_read(data_ready) == 0. -/
def is_data_ready (pin : Bool) : Bool := !pin

/-- ads1256_event. -/
def event (s : State) : State :=
  { s with pending_flag := true, timer_armed := false }

/-- ads1256_reschedule_timer: note that unlike the other two drivers it also
sets FLAG_PENDING before scheduling the timer. -/
def reschedule_timer (s : State) : State :=
  { s with pending_flag := true, timer_armed := true }

/-- 24-bit big-endian word from the three uint8_t SPI bytes. -/
def raw_word (e : Env) : Nat :=
  ((e.msg0 % 2 ^ 8) <<< 16) ||| ((e.msg1 % 2 ^ 8) <<< 8) ||| (e.msg2 % 2 ^ 8)

/-- Decode step of ads1256_read_adc: sign extension of the 24-bit word by the
XOR and subtract trick with m = 1 << 23, counts = (counts_original ^ m) - m. -/
def decode (v : Nat) : Int := ((v ^^^ 0x800000 : Nat) : Int) - 0x800000

/-- ads1256_read_adc, with MAX_SPI_READ_TIME passed explicitly as max.  The
third result component lists the samples forwarded to the attached load-cell
endstop.  All three shutdown calls are modelled as fatal outcomes. -/
def read_adc (max : Nat) (s : State) (env : Env) :
    State × List Report × List Int × PollOutcome :=
  if !(is_data_ready env.data_ready_pin) then
    (reschedule_timer s, [], [], .deferred)
  else if env.elapsed ≥ max then
    (s, [], [], .fatal "ads1256 read timing error, read took too long")
  else
    let counts := decode (raw_word env)
    if counts = -1 then
      (s, [], [], .fatal "ads1256: Possible bad read")
    else if counts ≥ 0x800000 then
      (s, [], [], .fatal "ads1256: Invalid Counts")
    else
      let sb1 := add_sample s.sb (u32ofInt counts)
      let lceOut := if s.lce then [counts] else []
      let out := flush_samples sb1
      (reschedule_timer { s with sb := out.1 }, out.2, lceOut, .sample counts)

/-- command_query_ads1256: delete the timer, clear all flags, store
rest_ticks; zero ends measurements, nonzero resets the buffer and
reschedules. -/
def command_query (s : State) (rest_ticks : Nat) : State :=
  let s1 := { s with timer_armed := false, pending_flag := false,
                     rest_ticks := rest_ticks }
  if rest_ticks = 0 then s1
  else reschedule_timer { s1 with sb := sensor_bulk_reset s1.sb }

end Klipper.Ads1256

namespace Klipper

/-! ### Arithmetic facts about the decoders -/

lemma or_two_pow_of_lt {v n : Nat} (h : v < 2 ^ n) : v ||| 2 ^ n = v + 2 ^ n := by
  calc v ||| 2 ^ n = 2 ^ n ||| v := Nat.or_comm _ _
    _ = 2 ^ n * 1 ||| v := by rw [Nat.mul_one]
    _ = 2 ^ n * 1 + v := (Nat.mul_add_lt_is_or h 1).symm
    _ = v + 2 ^ n := by omega

lemma xor_two_pow_of_lt {v n : Nat} (h : v < 2 ^ n) : v ^^^ 2 ^ n = v + 2 ^ n := by
  rw [← or_two_pow_of_lt h]
  apply Nat.eq_of_testBit_eq
  intro i
  simp only [Nat.testBit_xor, Nat.testBit_or, Nat.testBit_two_pow]
  by_cases hi : n = i
  · subst hi
    simp [Nat.testBit_lt_two_pow h]
  · simp [hi]

lemma xor_two_pow_of_ge {v n : Nat} (h1 : 2 ^ n ≤ v) (h2 : v < 2 ^ (n + 1)) :
    v ^^^ 2 ^ n = v - 2 ^ n := by
  have hw : v - 2 ^ n < 2 ^ n := by
    have : 2 ^ (n + 1) = 2 * 2 ^ n := by ring
    omega
  have hstep := xor_two_pow_of_lt hw
  have hv : (v - 2 ^ n) ^^^ 2 ^ n = v := by rw [hstep]; omega
  calc v ^^^ 2 ^ n = ((v - 2 ^ n) ^^^ 2 ^ n) ^^^ 2 ^ n := by rw [hv]
    _ = (v - 2 ^ n) ^^^ (2 ^ n ^^^ 2 ^ n) := Nat.xor_assoc _ _ _
    _ = v - 2 ^ n := by simp

lemma or_ff000000_of_lt {v : Nat} (h : v < 2 ^ 24) :
    v ||| 0xFF000000 = v + 0xFF000000 := by
  have e : (2 : Nat) ^ 24 * 0xFF = 0xFF000000 := by norm_num
  calc v ||| 0xFF000000 = 0xFF000000 ||| v := Nat.or_comm _ _
    _ = 2 ^ 24 * 0xFF ||| v := by rw [e]
    _ = 2 ^ 24 * 0xFF + v := (Nat.mul_add_lt_is_or h 0xFF).symm
    _ = v + 0xFF000000 := by rw [e]; omega

lemma toSigned32_or_ff {v : Nat} (h1 : 2 ^ 23 ≤ v) (h2 : v < 2 ^ 24) :
    toSigned32 (v ||| 0xFF000000) = (v : Int) - 2 ^ 24 := by
  rw [or_ff000000_of_lt h2]
  unfold toSigned32
  have hmod : (v + 0xFF000000) % 2 ^ 32 = v + 0xFF000000 :=
    Nat.mod_eq_of_lt (by omega)
  rw [hmod, if_neg (by omega)]
  push_cast
  omega

/-- Case analysis of the hx71x (and ads1220) decode function. -/
lemma hx71x_decode_eq {v : Nat} (h : v < 2 ^ 24) :
    Hx71x.decode v =
      if v = 0x800000 then 0
      else if v < 0x800000 then (v : Int) else (v : Int) - 2 ^ 24 := by
  unfold Hx71x.decode
  by_cases h1 : v = 0x800000
  · subst h1; norm_num
  · by_cases h2 : v < 0x800000
    · have hne : ¬ ((v : Int) = 0x800000) := by exact_mod_cast h1
      have hle : ¬ ((v : Int) > 0x800000) := by omega
      rw [if_neg hne, if_neg hle, if_neg h1, if_pos h2]
    · have hne : ¬ ((v : Int) = 0x800000) := by exact_mod_cast h1
      have hgt : (v : Int) > 0x800000 := by omega
      rw [if_neg hne, if_pos hgt, if_neg h1, if_neg h2]
      have h3 : 2 ^ 23 ≤ v := by norm_num at h2 ⊢; omega
      exact toSigned32_or_ff h3 h

/-- The ads1220 decode function is the same function as the hx71x one. -/
lemma ads1220_decode_eq_hx71x : Ads1220.decode = Hx71x.decode := rfl

/-- Case analysis of the ads1256 XOR and subtract decode function. -/
lemma ads1256_decode_eq {v : Nat} (h : v < 2 ^ 24) :
    Ads1256.decode v = if v < 2 ^ 23 then (v : Int) else (v : Int) - 2 ^ 24 := by
  unfold Ads1256.decode
  have em : (0x800000 : Nat) = 2 ^ 23 := by norm_num
  by_cases hv : v < 2 ^ 23
  · rw [if_pos hv, em, xor_two_pow_of_lt hv]
    push_cast
    norm_num
  · have h1 : 2 ^ 23 ≤ v := by omega
    have h2 : v < 2 ^ (23 + 1) := by norm_num at h ⊢; omega
    rw [if_neg hv, em, xor_two_pow_of_ge h1 h2]
    omega

/-- Range of the hx71x and ads1220 decoded samples. -/
lemma hx71x_decode_range {v : Nat} (h : v < 2 ^ 24) :
    -0x7FFFFF ≤ Hx71x.decode v ∧ Hx71x.decode v ≤ 0x7FFFFF := by
  rw [hx71x_decode_eq h]
  by_cases h1 : v = 0x800000
  · simp [h1]
  · by_cases h2 : v < 0x800000
    · rw [if_neg h1, if_pos h2]
      norm_num at h2
      constructor <;> omega
    · rw [if_neg h1, if_neg h2]
      norm_num at h h2
      constructor <;> omega

/-- Bound for the 24-bit bit-bang accumulator loop. -/
lemma foldl_bits_lt (f : Nat → Bool) :
    ∀ (n : Nat) (acc : Nat),
      (List.range n).foldl (fun a i => 2 * a + (if f (1 + i) then 1 else 0)) acc
        < (acc + 1) * 2 ^ n := by
  intro n
  induction n with
  | zero => intro acc; simp
  | succ n ih =>
    intro acc
    rw [List.range_succ, List.foldl_append]
    simp only [List.foldl_cons, List.foldl_nil]
    have hF := ih acc
    set F := (List.range n).foldl
        (fun a i => 2 * a + (if f (1 + i) then 1 else 0)) acc with hFdef
    have hb : (if f (1 + n) then 1 else 0) ≤ 1 := by split <;> omega
    calc 2 * F + (if f (1 + n) then 1 else 0) ≤ 2 * F + 1 := by omega
      _ < 2 * (F + 1) := by omega
      _ ≤ 2 * ((acc + 1) * 2 ^ n) := by
          have : F + 1 ≤ (acc + 1) * 2 ^ n := hF
          omega
      _ = (acc + 1) * 2 ^ (n + 1) := by ring

lemma read_bits_lt (dout : Nat → Bool) : Hx71x.read_bits dout < 2 ^ 24 := by
  have h := foldl_bits_lt dout 24 0
  simpa [Hx71x.read_bits] using h

lemma word24_lt (a b c : Nat) :
    ((a % 2 ^ 8) <<< 16) ||| ((b % 2 ^ 8) <<< 8) ||| (c % 2 ^ 8) < 2 ^ 24 := by
  have ha : a % 2 ^ 8 < 2 ^ 8 := Nat.mod_lt _ (by norm_num)
  have hb : b % 2 ^ 8 < 2 ^ 8 := Nat.mod_lt _ (by norm_num)
  have hc : c % 2 ^ 8 < 2 ^ 8 := Nat.mod_lt _ (by norm_num)
  apply Nat.or_lt_two_pow
  · apply Nat.or_lt_two_pow
    · rw [Nat.shiftLeft_eq]
      norm_num at ha ⊢
      omega
    · rw [Nat.shiftLeft_eq]
      norm_num at hb ⊢
      omega
  · norm_num at hc ⊢
    omega

lemma ads1220_raw_word_lt (e : Ads1220.Env) : Ads1220.raw_word e < 2 ^ 24 :=
  word24_lt e.msg0 e.msg1 e.msg2

lemma ads1256_raw_word_lt (e : Ads1256.Env) : Ads1256.raw_word e < 2 ^ 24 :=
  word24_lt e.msg0 e.msg1 e.msg2

end Klipper

namespace Klipper

/-! ### Concrete fixtures used by witnesses and counterexamples -/

/-- An empty 8-byte sample buffer. -/
def sbZero8 : SensorBulk :=
  { possible_overflows := 0, data_count := 0, data := List.replicate 8 0 }

/-- An 8-byte sample buffer filled to capacity minus one sample slot. -/
def sbHalf8 : SensorBulk :=
  { possible_overflows := 0, data_count := 4, data := List.replicate 8 0 }

/-- A running hx71x sensor with its pending flag set and timer fired. -/
def hxS0 : Hx71x.State :=
  { gain_channel := 1, pending_flag := true, rest_ticks := 5,
    timer_armed := false, sclk := false, sb := sbZero8 }

/-- A running hx71x sensor whose buffer holds capacity minus 4 bytes. -/
def hxS4 : Hx71x.State :=
  { gain_channel := 1, pending_flag := true, rest_ticks := 5,
    timer_armed := false, sclk := false, sb := sbHalf8 }

/-- A running ads1220 sensor with its pending flag set and timer fired. -/
def adsS0 : Ads1220.State :=
  { pending_flag := true, rest_ticks := 5, timer_armed := false, sb := sbZero8 }

/-- A running ads1220 sensor whose buffer holds capacity minus 4 bytes. -/
def adsS4 : Ads1220.State :=
  { pending_flag := true, rest_ticks := 5, timer_armed := false, sb := sbHalf8 }

/-- A running ads1256 sensor with its pending flag set and timer fired. -/
def ads256S0 : Ads1256.State :=
  { pending_flag := true, rest_ticks := 5, timer_armed := false,
    lce := false, sb := sbZero8 }

/-- Poll environment for hx71x: data ready, all bits zero, chip no longer
ready after the read (a clean successful poll when elapsed is below max). -/
def hxEnvGood : Hx71x.Env := { dout := fun k => decide (k = 25), elapsed := 0 }

/-- Poll environment for hx71x in which the chip is not ready. -/
def hxEnvNotReady : Hx71x.Env := { dout := fun _ => true, elapsed := 0 }

/-- Poll environment for hx71x in which the chip reads ready again right
after the 24-bit read: a protocol desync error. -/
def hxEnvReadyAfter : Hx71x.Env := { dout := fun _ => false, elapsed := 0 }

/-- Clean ads1220 poll environment with an all-zero sample. -/
def adsEnvGood : Ads1220.Env :=
  { data_ready_pin := false, msg0 := 0, msg1 := 0, msg2 := 0, elapsed := 0 }

/-- ads1256 poll environment returning the raw midpoint word 0x800000. -/
def ads1256EnvMid : Ads1256.Env :=
  { data_ready_pin := false, msg0 := 0x80, msg1 := 0, msg2 := 0, elapsed := 0 }

/-- ads1256 poll environment returning the raw word 0xFFFFFF. -/
def ads1256EnvFF : Ads1256.Env :=
  { data_ready_pin := false, msg0 := 0xFF, msg1 := 0xFF, msg2 := 0xFF, elapsed := 0 }

/-- ads1256 poll environment returning the small positive word 1. -/
def ads1256EnvOne : Ads1256.Env :=
  { data_ready_pin := false, msg0 := 0, msg1 := 0, msg2 := 1, elapsed := 0 }

/-! ### Claim C7 -/

/-- Claim C7: a poll whose measured elapsed read or transfer time equals the
maximum allowed window exactly is rejected as a timing error in all three
drivers: the comparison elapsed >= max is inclusive. -/
theorem claim_C7_timeout_boundary_inclusive (max : Nat)
    (s1 : Hx71x.State) (e1 : Hx71x.Env)
    (s2 : Ads1220.State) (e2 : Ads1220.Env)
    (s3 : Ads1256.State) (e3 : Ads1256.Env)
    (h1r : Hx71x.is_data_ready (e1.dout 0) = true)
    (h1a : Hx71x.is_data_ready (e1.dout 25) = false)
    (h1t : e1.elapsed = max)
    (h2r : Ads1220.is_data_ready e2.data_ready_pin = true)
    (h2t : e2.elapsed = max)
    (h3r : Ads1256.is_data_ready e3.data_ready_pin = true)
    (h3t : e3.elapsed = max) :
    (Hx71x.read_adc max s1 e1).2.2 = .errorRecord Hx71x.ERROR_READ_TOO_LONG ∧
    (Ads1220.read_adc max s2 e2).2.2 = .errorRecord Ads1220.ERROR_READ_TOO_LONG ∧
    (Ads1256.read_adc max s3 e3).2.2.2 =
      .fatal "ads1256 read timing error, read took too long" := by
  refine ⟨?_, ?_, ?_⟩
  · simp [Hx71x.read_adc, h1r, h1a, h1t, Hx71x.send_error]
  · simp [Ads1220.read_adc, h2r, h2t, Ads1220.send_error]
  · simp [Ads1256.read_adc, h3r, h3t]

/-- Witness for claim C7 at a concrete boundary input: elapsed = max = 7. -/
theorem claim_C7_witness :
    (Hx71x.read_adc 7 hxS0 { dout := fun k => decide (k = 25), elapsed := 7 }).2.2
        = .errorRecord Hx71x.ERROR_READ_TOO_LONG ∧
    (Ads1220.read_adc 7 adsS0
        { data_ready_pin := false, msg0 := 0, msg1 := 0, msg2 := 0,
          elapsed := 7 }).2.2 = .errorRecord Ads1220.ERROR_READ_TOO_LONG ∧
    (Ads1256.read_adc 7 ads256S0
        { data_ready_pin := false, msg0 := 0, msg1 := 0, msg2 := 0,
          elapsed := 7 }).2.2.2 =
      .fatal "ads1256 read timing error, read took too long" :=
  claim_C7_timeout_boundary_inclusive 7 hxS0 _ adsS0 _ ads256S0 _
    (by decide) (by decide) rfl (by decide) rfl (by decide) rfl

/-! ### Claim C8 -/

/-- Claim C8: issuing the stop command (rest_ticks = 0) is safe on any state
and idempotent in all three drivers: after each invocation the sensor is
disarmed, pending is cleared and rest_ticks is 0, and a second invocation
leaves the state identical to the first. -/
theorem claim_C8_stop_idempotent (s1 : Hx71x.State) (s2 : Ads1220.State)
    (s3 : Ads1256.State) :
    ((Hx71x.command_query s1 0).timer_armed = false ∧
     (Hx71x.command_query s1 0).pending_flag = false ∧
     (Hx71x.command_query s1 0).rest_ticks = 0 ∧
     Hx71x.command_query (Hx71x.command_query s1 0) 0 = Hx71x.command_query s1 0) ∧
    ((Ads1220.command_query s2 0).timer_armed = false ∧
     (Ads1220.command_query s2 0).pending_flag = false ∧
     (Ads1220.command_query s2 0).rest_ticks = 0 ∧
     Ads1220.command_query (Ads1220.command_query s2 0) 0
        = Ads1220.command_query s2 0) ∧
    ((Ads1256.command_query s3 0).timer_armed = false ∧
     (Ads1256.command_query s3 0).pending_flag = false ∧
     (Ads1256.command_query s3 0).rest_ticks = 0 ∧
     Ads1256.command_query (Ads1256.command_query s3 0) 0
        = Ads1256.command_query s3 0) :=
  ⟨⟨rfl, rfl, rfl, rfl⟩, ⟨rfl, rfl, rfl, rfl⟩, ⟨rfl, rfl, rfl, rfl⟩⟩

/-! ### Claim C9 -/

/-- Modelled from the spec: the standard twos-complement sign extension used
by the other drivers, as the claim words it: v for v < 0x800000, and
v | 0xFF000000 interpreted as a signed 32-bit value for v >= 0x800000. -/
def signext24_spec (v : Nat) : Int :=
  if v < 0x800000 then (v : Int) else toSigned32 (v ||| 0xFF000000)

/-- Claim C9: for every 24-bit word v the ads1256 XOR and subtract sign
extension (v ^ 0x800000) - 0x800000 agrees with the standard twos-complement
sign extension used by the other drivers. -/
theorem claim_C9_signext_equivalence (v : Nat) (h : v < 2 ^ 24) :
    Ads1256.decode v = signext24_spec v := by
  rw [ads1256_decode_eq h]
  unfold signext24_spec
  by_cases hv : v < 0x800000
  · have h23 : v < 2 ^ 23 := by norm_num; omega
    rw [if_pos hv, if_pos h23]
  · have h23 : ¬ v < 2 ^ 23 := by norm_num; omega
    rw [if_neg hv, if_neg h23, toSigned32_or_ff (by omega) h]

/-- Witness for claim C9 at the concrete inputs 0xFFFFFF, 0x800000 and 5. -/
theorem claim_C9_witness :
    (0xFFFFFF : Nat) < 2 ^ 24 ∧
    Ads1256.decode 0xFFFFFF = signext24_spec 0xFFFFFF ∧
    Ads1256.decode 0x800000 = signext24_spec 0x800000 ∧
    Ads1256.decode 5 = signext24_spec 5 :=
  ⟨by norm_num, claim_C9_signext_equivalence 0xFFFFFF (by norm_num),
   claim_C9_signext_equivalence 0x800000 (by norm_num),
   claim_C9_signext_equivalence 5 (by norm_num)⟩

end Klipper

namespace Klipper

/-! ### Routing helper lemmas -/

lemma hx71x_read_adc_ready (max : Nat) (s : Hx71x.State) (e : Hx71x.Env)
    (hr : Hx71x.is_data_ready (e.dout 0) = true)
    (ha : Hx71x.is_data_ready (e.dout 25) = false)
    (ht : e.elapsed < max) :
    Hx71x.read_adc max s e =
      if Hx71x.decode (Hx71x.read_bits e.dout) < -0x7FFFFF ∨
          Hx71x.decode (Hx71x.read_bits e.dout) > 0x7FFFFF then
        Hx71x.send_error s Hx71x.ERROR_OUT_OF_RANGE
      else
        (Hx71x.reschedule_timer
           { s with pending_flag := false,
                    sb := (flush_samples (add_sample s.sb
                      (u32ofInt (Hx71x.decode (Hx71x.read_bits e.dout))))).1 },
         (flush_samples (add_sample s.sb
             (u32ofInt (Hx71x.decode (Hx71x.read_bits e.dout))))).2,
         .sample (Hx71x.decode (Hx71x.read_bits e.dout))) := by
  have ht2 : ¬ (e.elapsed ≥ max) := by omega
  simp [Hx71x.read_adc, hr, ha, ht2]

lemma ads1220_read_adc_ready (max : Nat) (s : Ads1220.State) (e : Ads1220.Env)
    (hr : Ads1220.is_data_ready e.data_ready_pin = true)
    (ht : e.elapsed < max) :
    Ads1220.read_adc max s e =
      if Ads1220.decode (Ads1220.raw_word e) < -0x7FFFFF ∨
          Ads1220.decode (Ads1220.raw_word e) > 0x7FFFFF then
        Ads1220.send_error s Ads1220.ERROR_OUT_OF_RANGE
      else
        (Ads1220.reschedule_timer
           { s with pending_flag := false,
                    sb := (flush_samples (add_sample s.sb
                      (u32ofInt (Ads1220.decode (Ads1220.raw_word e))))).1 },
         (flush_samples (add_sample s.sb
             (u32ofInt (Ads1220.decode (Ads1220.raw_word e))))).2,
         .sample (Ads1220.decode (Ads1220.raw_word e))) := by
  have ht2 : ¬ (e.elapsed ≥ max) := by omega
  simp [Ads1220.read_adc, hr, ht2]

/-! ### Claim C3 -/

/-- Claim C3: the hx71x and ads1220 decoders map the raw midpoint 0x800000 to
0, keep values in [0, 0x7FFFFF] unchanged, sign-extend values in
[0x800001, 0xFFFFFF] by OR-ing 0xFF000000, and a decoded value outside
[-0x7FFFFF, 0x7FFFFF] is routed to the out-of-range error record instead of
being appended as a sample. -/
theorem claim_C3_decode_rules (v : Nat) (h : v < 2 ^ 24) :
    (v = 0x800000 → Hx71x.decode v = 0 ∧ Ads1220.decode v = 0) ∧
    (v ≤ 0x7FFFFF → Hx71x.decode v = (v : Int) ∧ Ads1220.decode v = (v : Int)) ∧
    (0x800000 < v → Hx71x.decode v = toSigned32 (v ||| 0xFF000000) ∧
        Ads1220.decode v = toSigned32 (v ||| 0xFF000000)) ∧
    (∀ (max : Nat) (s : Hx71x.State) (e : Hx71x.Env),
        Hx71x.is_data_ready (e.dout 0) = true →
        Hx71x.is_data_ready (e.dout 25) = false →
        e.elapsed < max →
        (Hx71x.read_adc max s e).2.2 =
          if Hx71x.decode (Hx71x.read_bits e.dout) < -0x7FFFFF ∨
              Hx71x.decode (Hx71x.read_bits e.dout) > 0x7FFFFF then
            .errorRecord Hx71x.ERROR_OUT_OF_RANGE
          else .sample (Hx71x.decode (Hx71x.read_bits e.dout))) ∧
    (∀ (max : Nat) (s : Ads1220.State) (e : Ads1220.Env),
        Ads1220.is_data_ready e.data_ready_pin = true →
        e.elapsed < max →
        (Ads1220.read_adc max s e).2.2 =
          if Ads1220.decode (Ads1220.raw_word e) < -0x7FFFFF ∨
              Ads1220.decode (Ads1220.raw_word e) > 0x7FFFFF then
            .errorRecord Ads1220.ERROR_OUT_OF_RANGE
          else .sample (Ads1220.decode (Ads1220.raw_word e))) := by
  refine ⟨?_, ?_, ?_, ?_, ?_⟩
  · intro hv
    subst hv
    refine ⟨by decide, by decide⟩
  · intro hv
    have h1 : Hx71x.decode v = (v : Int) := by
      rw [hx71x_decode_eq h, if_neg (by omega), if_pos (by omega)]
    exact ⟨h1, by rw [ads1220_decode_eq_hx71x]; exact h1⟩
  · intro hv
    have h1 : Hx71x.decode v = toSigned32 (v ||| 0xFF000000) := by
      unfold Hx71x.decode
      rw [if_neg (by omega : ¬ ((v : Int) = 0x800000)),
          if_pos (by omega : (v : Int) > 0x800000)]
    exact ⟨h1, by rw [ads1220_decode_eq_hx71x]; exact h1⟩
  · intro max s e hr ha ht
    rw [hx71x_read_adc_ready max s e hr ha ht]
    by_cases hc : Hx71x.decode (Hx71x.read_bits e.dout) < -0x7FFFFF ∨
        Hx71x.decode (Hx71x.read_bits e.dout) > 0x7FFFFF
    · rw [if_pos hc, if_pos hc]
      rfl
    · rw [if_neg hc, if_neg hc]
  · intro max s e hr ht
    rw [ads1220_read_adc_ready max s e hr ht]
    by_cases hc : Ads1220.decode (Ads1220.raw_word e) < -0x7FFFFF ∨
        Ads1220.decode (Ads1220.raw_word e) > 0x7FFFFF
    · rw [if_pos hc, if_pos hc]
      rfl
    · rw [if_neg hc, if_neg hc]

/-- Witness for claim C3 at the concrete raw values 0x800000 and 5 and at a
concrete clean poll. -/
theorem claim_C3_witness :
    (Hx71x.decode 0x800000 = 0 ∧ Ads1220.decode 0x800000 = 0) ∧
    (Hx71x.decode 5 = (5 : Int) ∧ Ads1220.decode 5 = (5 : Int)) ∧
    (Hx71x.read_adc 9 hxS0 hxEnvGood).2.2 =
      if Hx71x.decode (Hx71x.read_bits hxEnvGood.dout) < -0x7FFFFF ∨
          Hx71x.decode (Hx71x.read_bits hxEnvGood.dout) > 0x7FFFFF then
        .errorRecord Hx71x.ERROR_OUT_OF_RANGE
      else .sample (Hx71x.decode (Hx71x.read_bits hxEnvGood.dout)) :=
  ⟨(claim_C3_decode_rules 0x800000 (by norm_num)).1 rfl,
   (claim_C3_decode_rules 5 (by norm_num)).2.1 (by norm_num),
   ((claim_C3_decode_rules 5 (by norm_num)).2.2.2.1 9 hxS0 hxEnvGood
     (by decide) (by decide) (by decide))⟩

end Klipper

namespace Klipper

/-! ### Claim C10 -/

/-- Claim C10: every decoded hx71x or ads1220 sample lies in
[-0x7FFFFF, 0x7FFFFF], so no appended sample can equal the reserved error
sentinel 0x80000000, and the out-of-range error branch after the decode is
unreachable in those two drivers. -/
theorem claim_C10_range_branch_unreachable :
    (∀ v : Nat, v < 2 ^ 24 →
        -0x7FFFFF ≤ Hx71x.decode v ∧ Hx71x.decode v ≤ 0x7FFFFF ∧
        -0x7FFFFF ≤ Ads1220.decode v ∧ Ads1220.decode v ≤ 0x7FFFFF ∧
        u32ofInt (Hx71x.decode v) ≠ SAMPLE_ERROR) ∧
    (∀ (max : Nat) (s : Hx71x.State) (e : Hx71x.Env),
        (Hx71x.read_adc max s e).2.2 ≠ .errorRecord Hx71x.ERROR_OUT_OF_RANGE) ∧
    (∀ (max : Nat) (s : Ads1220.State) (e : Ads1220.Env),
        (Ads1220.read_adc max s e).2.2 ≠ .errorRecord Ads1220.ERROR_OUT_OF_RANGE) := by
  refine ⟨?_, ?_, ?_⟩
  · intro v hv
    obtain ⟨hl, hu⟩ := hx71x_decode_range hv
    refine ⟨hl, hu, ?_, ?_, ?_⟩
    · rw [ads1220_decode_eq_hx71x]; exact hl
    · rw [ads1220_decode_eq_hx71x]; exact hu
    · unfold u32ofInt SAMPLE_ERROR
      omega
  · intro max s e
    cases hb0 : Hx71x.is_data_ready (e.dout 0) with
    | false => simp [Hx71x.read_adc, hb0]
    | true =>
      cases hb25 : Hx71x.is_data_ready (e.dout 25) with
      | true =>
        simp [Hx71x.read_adc, hb0, hb25, Hx71x.send_error,
              Hx71x.ERROR_READY_AFTER_READ, Hx71x.ERROR_OUT_OF_RANGE]
      | false =>
        by_cases ht : e.elapsed ≥ max
        · simp [Hx71x.read_adc, hb0, hb25, ht, Hx71x.send_error,
                Hx71x.ERROR_READ_TOO_LONG, Hx71x.ERROR_OUT_OF_RANGE]
        · have ht2 : e.elapsed < max := by omega
          rw [hx71x_read_adc_ready max s e hb0 hb25 ht2]
          have hrange := hx71x_decode_range (read_bits_lt e.dout)
          rw [if_neg (by omega)]
          simp
  · intro max s e
    cases hb : Ads1220.is_data_ready e.data_ready_pin with
    | false => simp [Ads1220.read_adc, hb]
    | true =>
      by_cases ht : e.elapsed ≥ max
      · simp [Ads1220.read_adc, hb, ht, Ads1220.send_error,
              Ads1220.ERROR_READ_TOO_LONG, Ads1220.ERROR_OUT_OF_RANGE]
      · have ht2 : e.elapsed < max := by omega
        rw [ads1220_read_adc_ready max s e hb ht2]
        have hrange : -0x7FFFFF ≤ Ads1220.decode (Ads1220.raw_word e) ∧
            Ads1220.decode (Ads1220.raw_word e) ≤ 0x7FFFFF := by
          rw [ads1220_decode_eq_hx71x]
          exact hx71x_decode_range (ads1220_raw_word_lt e)
        rw [if_neg (by omega)]
        simp

/-- Witness for claim C10 at concrete inputs. -/
theorem claim_C10_witness :
    ((5 : Nat) < 2 ^ 24 ∧ -0x7FFFFF ≤ Hx71x.decode 5) ∧
    (Hx71x.read_adc 9 hxS0 hxEnvGood).2.2 ≠ .errorRecord Hx71x.ERROR_OUT_OF_RANGE ∧
    (Ads1220.read_adc 9 adsS0 adsEnvGood).2.2 ≠ .errorRecord Ads1220.ERROR_OUT_OF_RANGE :=
  ⟨⟨by norm_num, (claim_C10_range_branch_unreachable.1 5 (by norm_num)).1⟩,
   claim_C10_range_branch_unreachable.2.1 9 hxS0 hxEnvGood,
   claim_C10_range_branch_unreachable.2.2 9 adsS0 adsEnvGood⟩

/-! ### Claim C2 -/

/-- Claim C2: in the ads1256 driver the raw word 0xFFFFFF does halt the
device, but the raw midpoint word 0x800000 does not: it decodes to
-0x800000, passes both shutdown checks, and is appended as a sample.  This
theorem evaluates the embedded ads1256_read_adc at both inputs. -/
theorem claim_C2_midpoint_appended_not_fatal :
    (Ads1256.read_adc 100 ads256S0 ads1256EnvMid).2.2.2 = .sample (-0x800000) ∧
    (Ads1256.read_adc 100 ads256S0 ads1256EnvMid).1.sb.data_count = 4 ∧
    (Ads1256.read_adc 100 ads256S0 ads1256EnvMid).1.timer_armed = true ∧
    (Ads1256.read_adc 100 ads256S0 ads1256EnvFF).2.2.2 =
      .fatal "ads1256: Possible bad read" := by
  refine ⟨?_, ?_, ?_, ?_⟩ <;> decide

end Klipper

namespace Klipper

/-! ### Claim C1 -/

/-- Counterexample to claim C1: a running hx71x sensor (pending set,
rest_ticks = 5, timer already fired) whose poll ends in the
ready-after-read error record is left with no outstanding timer: the error
path returns without rearming. -/
theorem claim_C1_counterexample :
    hxS0.rest_ticks ≠ 0 ∧ hxS0.pending_flag = true ∧
    (Hx71x.read_adc 100 hxS0 hxEnvReadyAfter).2.2 =
      .errorRecord Hx71x.ERROR_READY_AFTER_READ ∧
    (Hx71x.read_adc 100 hxS0 hxEnvReadyAfter).1.timer_armed = false := by
  refine ⟨?_, ?_, ?_, ?_⟩ <;> decide

/-- Claim C1 as amended: after a poll that produced a sample or a deferred
not-ready retry the timer is rearmed in all three drivers, but a poll that
produced a soft error record (hx71x and ads1220 only) returns with the timer
state untouched, leaving the fired timer unscheduled until the host issues a
new query command. -/
theorem claim_C1_amended_rearm :
    (∀ (max : Nat) (s : Hx71x.State) (e : Hx71x.Env),
        ((Hx71x.read_adc max s e).2.2 = .deferred →
            (Hx71x.read_adc max s e).1.timer_armed = true) ∧
        (∀ c : Int, (Hx71x.read_adc max s e).2.2 = .sample c →
            (Hx71x.read_adc max s e).1.timer_armed = true) ∧
        (∀ code : Nat, (Hx71x.read_adc max s e).2.2 = .errorRecord code →
            (Hx71x.read_adc max s e).1.timer_armed = s.timer_armed)) ∧
    (∀ (max : Nat) (s : Ads1220.State) (e : Ads1220.Env),
        ((Ads1220.read_adc max s e).2.2 = .deferred →
            (Ads1220.read_adc max s e).1.timer_armed = true) ∧
        (∀ c : Int, (Ads1220.read_adc max s e).2.2 = .sample c →
            (Ads1220.read_adc max s e).1.timer_armed = true) ∧
        (∀ code : Nat, (Ads1220.read_adc max s e).2.2 = .errorRecord code →
            (Ads1220.read_adc max s e).1.timer_armed = s.timer_armed)) ∧
    (∀ (max : Nat) (s : Ads1256.State) (e : Ads1256.Env),
        ((Ads1256.read_adc max s e).2.2.2 = .deferred →
            (Ads1256.read_adc max s e).1.timer_armed = true) ∧
        (∀ c : Int, (Ads1256.read_adc max s e).2.2.2 = .sample c →
            (Ads1256.read_adc max s e).1.timer_armed = true)) := by
  refine ⟨?_, ?_, ?_⟩
  · intro max s e
    cases hb0 : Hx71x.is_data_ready (e.dout 0) with
    | false => simp [Hx71x.read_adc, hb0, Hx71x.reschedule_timer]
    | true =>
      cases hb25 : Hx71x.is_data_ready (e.dout 25) with
      | true => simp [Hx71x.read_adc, hb0, hb25, Hx71x.send_error]
      | false =>
        by_cases ht : e.elapsed ≥ max
        · simp [Hx71x.read_adc, hb0, hb25, ht, Hx71x.send_error]
        · have ht2 : e.elapsed < max := by omega
          rw [hx71x_read_adc_ready max s e hb0 hb25 ht2]
          by_cases hc : Hx71x.decode (Hx71x.read_bits e.dout) < -0x7FFFFF ∨
              Hx71x.decode (Hx71x.read_bits e.dout) > 0x7FFFFF
          · rw [if_pos hc]
            simp [Hx71x.send_error]
          · rw [if_neg hc]
            simp [Hx71x.reschedule_timer]
  · intro max s e
    cases hb : Ads1220.is_data_ready e.data_ready_pin with
    | false => simp [Ads1220.read_adc, hb, Ads1220.reschedule_timer]
    | true =>
      by_cases ht : e.elapsed ≥ max
      · simp [Ads1220.read_adc, hb, ht, Ads1220.send_error]
      · have ht2 : e.elapsed < max := by omega
        rw [ads1220_read_adc_ready max s e hb ht2]
        by_cases hc : Ads1220.decode (Ads1220.raw_word e) < -0x7FFFFF ∨
            Ads1220.decode (Ads1220.raw_word e) > 0x7FFFFF
        · rw [if_pos hc]
          simp [Ads1220.send_error]
        · rw [if_neg hc]
          simp [Ads1220.reschedule_timer]
  · intro max s e
    cases hb : Ads1256.is_data_ready e.data_ready_pin with
    | false => simp [Ads1256.read_adc, hb, Ads1256.reschedule_timer]
    | true =>
      by_cases ht : e.elapsed ≥ max
      · simp [Ads1256.read_adc, hb, ht]
      · by_cases h1 : Ads1256.decode (Ads1256.raw_word e) = -1
        · simp [Ads1256.read_adc, hb, ht, h1]
        · by_cases h2 : Ads1256.decode (Ads1256.raw_word e) ≥ 0x800000
          · simp [Ads1256.read_adc, hb, ht, h1, h2]
          · simp [Ads1256.read_adc, hb, ht, h1, h2, Ads1256.reschedule_timer]

/-- Witness for amended claim C1: a concrete deferred hx71x poll and a
concrete successful ads1256 poll both leave the timer armed. -/
theorem claim_C1_witness :
    (Hx71x.read_adc 100 hxS0 hxEnvNotReady).1.timer_armed = true ∧
    (Ads1256.read_adc 100 ads256S0 ads1256EnvOne).1.timer_armed = true :=
  ⟨(claim_C1_amended_rearm.1 100 hxS0 hxEnvNotReady).1 (by decide),
   (claim_C1_amended_rearm.2.2 100 ads256S0 ads1256EnvOne).2 1 (by decide)⟩

/-! ### Claim C4 -/

/-- Counterexample to claim C4: a deferred (not-ready) hx71x poll completes
with the pending flag still set, and a successful ads1256 poll completes
with the pending flag set again because its reschedule helper sets
FLAG_PENDING. -/
theorem claim_C4_counterexample :
    hxS0.pending_flag = true ∧
    (Hx71x.read_adc 100 hxS0 hxEnvNotReady).2.2 = .deferred ∧
    (Hx71x.read_adc 100 hxS0 hxEnvNotReady).1.pending_flag = true ∧
    (Ads1256.read_adc 100 ads256S0 ads1256EnvOne).2.2.2 = .sample 1 ∧
    (Ads1256.read_adc 100 ads256S0 ads1256EnvOne).1.pending_flag = true := by
  refine ⟨?_, ?_, ?_, ?_, ?_⟩ <;> decide

/-- Claim C4 as amended: the timer interrupt sets pending in every driver;
in hx71x and ads1220 a poll clears pending when it ends in a sample or in an
error record but leaves it unchanged when deferred, and in ads1256 every
deferred or successful poll ends with pending set because rescheduling sets
FLAG_PENDING itself. -/
theorem claim_C4_amended_pending :
    (∀ (max : Nat) (s : Hx71x.State) (e : Hx71x.Env),
        ((Hx71x.read_adc max s e).2.2 = .deferred →
            (Hx71x.read_adc max s e).1.pending_flag = s.pending_flag) ∧
        (∀ c : Int, (Hx71x.read_adc max s e).2.2 = .sample c →
            (Hx71x.read_adc max s e).1.pending_flag = false) ∧
        (∀ code : Nat, (Hx71x.read_adc max s e).2.2 = .errorRecord code →
            (Hx71x.read_adc max s e).1.pending_flag = false)) ∧
    (∀ (max : Nat) (s : Ads1220.State) (e : Ads1220.Env),
        ((Ads1220.read_adc max s e).2.2 = .deferred →
            (Ads1220.read_adc max s e).1.pending_flag = s.pending_flag) ∧
        (∀ c : Int, (Ads1220.read_adc max s e).2.2 = .sample c →
            (Ads1220.read_adc max s e).1.pending_flag = false) ∧
        (∀ code : Nat, (Ads1220.read_adc max s e).2.2 = .errorRecord code →
            (Ads1220.read_adc max s e).1.pending_flag = false)) ∧
    (∀ (max : Nat) (s : Ads1256.State) (e : Ads1256.Env),
        ((Ads1256.read_adc max s e).2.2.2 = .deferred →
            (Ads1256.read_adc max s e).1.pending_flag = true) ∧
        (∀ c : Int, (Ads1256.read_adc max s e).2.2.2 = .sample c →
            (Ads1256.read_adc max s e).1.pending_flag = true)) ∧
    ((∀ s : Hx71x.State, (Hx71x.event s).pending_flag = true) ∧
     (∀ s : Ads1220.State, (Ads1220.event s).pending_flag = true) ∧
     (∀ s : Ads1256.State, (Ads1256.event s).pending_flag = true)) := by
  refine ⟨?_, ?_, ?_, fun _ => rfl, fun _ => rfl, fun _ => rfl⟩
  · intro max s e
    cases hb0 : Hx71x.is_data_ready (e.dout 0) with
    | false => simp [Hx71x.read_adc, hb0, Hx71x.reschedule_timer]
    | true =>
      cases hb25 : Hx71x.is_data_ready (e.dout 25) with
      | true => simp [Hx71x.read_adc, hb0, hb25, Hx71x.send_error]
      | false =>
        by_cases ht : e.elapsed ≥ max
        · simp [Hx71x.read_adc, hb0, hb25, ht, Hx71x.send_error]
        · have ht2 : e.elapsed < max := by omega
          rw [hx71x_read_adc_ready max s e hb0 hb25 ht2]
          by_cases hc : Hx71x.decode (Hx71x.read_bits e.dout) < -0x7FFFFF ∨
              Hx71x.decode (Hx71x.read_bits e.dout) > 0x7FFFFF
          · rw [if_pos hc]
            simp [Hx71x.send_error]
          · rw [if_neg hc]
            simp [Hx71x.reschedule_timer]
  · intro max s e
    cases hb : Ads1220.is_data_ready e.data_ready_pin with
    | false => simp [Ads1220.read_adc, hb, Ads1220.reschedule_timer]
    | true =>
      by_cases ht : e.elapsed ≥ max
      · simp [Ads1220.read_adc, hb, ht, Ads1220.send_error]
      · have ht2 : e.elapsed < max := by omega
        rw [ads1220_read_adc_ready max s e hb ht2]
        by_cases hc : Ads1220.decode (Ads1220.raw_word e) < -0x7FFFFF ∨
            Ads1220.decode (Ads1220.raw_word e) > 0x7FFFFF
        · rw [if_pos hc]
          simp [Ads1220.send_error]
        · rw [if_neg hc]
          simp [Ads1220.reschedule_timer]
  · intro max s e
    cases hb : Ads1256.is_data_ready e.data_ready_pin with
    | false => simp [Ads1256.read_adc, hb, Ads1256.reschedule_timer]
    | true =>
      by_cases ht : e.elapsed ≥ max
      · simp [Ads1256.read_adc, hb, ht]
      · by_cases h1 : Ads1256.decode (Ads1256.raw_word e) = -1
        · simp [Ads1256.read_adc, hb, ht, h1]
        · by_cases h2 : Ads1256.decode (Ads1256.raw_word e) ≥ 0x800000
          · simp [Ads1256.read_adc, hb, ht, h1, h2]
          · simp [Ads1256.read_adc, hb, ht, h1, h2, Ads1256.reschedule_timer]

/-- Witness for amended claim C4: a concrete successful hx71x poll clears
pending and a concrete successful ads1256 poll leaves pending set. -/
theorem claim_C4_witness :
    (Hx71x.read_adc 9 hxS0 hxEnvGood).1.pending_flag = false ∧
    (Ads1256.read_adc 100 ads256S0 ads1256EnvOne).1.pending_flag = true :=
  ⟨(claim_C4_amended_pending.1 9 hxS0 hxEnvGood).2.1 0 (by decide),
   (claim_C4_amended_pending.2.2.1 100 ads256S0 ads1256EnvOne).2 1 (by decide)⟩

end Klipper

namespace Klipper

/-! ### Claim C5 -/

lemma add_sample_getElem (sb : SensorBulk) (counts : Nat)
    (h : sb.data_count + 4 ≤ sb.data.length) :
    (add_sample sb counts).data[sb.data_count]? = some (counts % 2 ^ 8) ∧
    (add_sample sb counts).data[sb.data_count + 1]? = some (counts / 2 ^ 8 % 2 ^ 8) ∧
    (add_sample sb counts).data[sb.data_count + 2]? = some (counts / 2 ^ 16 % 2 ^ 8) ∧
    (add_sample sb counts).data[sb.data_count + 3]? = some (counts / 2 ^ 24 % 2 ^ 8) := by
  unfold add_sample
  have n30 : sb.data_count + 3 ≠ sb.data_count := by omega
  have n31 : sb.data_count + 3 ≠ sb.data_count + 1 := by omega
  have n32 : sb.data_count + 3 ≠ sb.data_count + 2 := by omega
  have n20 : sb.data_count + 2 ≠ sb.data_count := by omega
  have n21 : sb.data_count + 2 ≠ sb.data_count + 1 := by omega
  have n10 : sb.data_count + 1 ≠ sb.data_count := by omega
  refine ⟨?_, ?_, ?_, ?_⟩
  · rw [List.getElem?_set_ne n30, List.getElem?_set_ne n20,
        List.getElem?_set_ne n10, List.getElem?_set_self (by omega)]
  · rw [List.getElem?_set_ne n31, List.getElem?_set_ne n21,
        List.getElem?_set_self (by simp; omega)]
  · rw [List.getElem?_set_ne n32, List.getElem?_set_self (by simp; omega)]
  · rw [List.getElem?_set_self (by simp; omega)]

lemma send_error_sb_spec (sb : SensorBulk) (code : Nat)
    (h : sb.data_count + 4 ≤ sb.data.length) :
    (send_error_sb sb code).1.data_count = 0 ∧
    (send_error_sb sb code).2.possible_overflows = code ∧
    (send_error_sb sb code).2.data_count = sb.data_count + 4 ∧
    (send_error_sb sb code).2.data[sb.data_count]? = some 0 ∧
    (send_error_sb sb code).2.data[sb.data_count + 1]? = some 0 ∧
    (send_error_sb sb code).2.data[sb.data_count + 2]? = some 0 ∧
    (send_error_sb sb code).2.data[sb.data_count + 3]? = some 0x80 := by
  obtain ⟨g0, g1, g2, g3⟩ := add_sample_getElem sb SAMPLE_ERROR h
  refine ⟨rfl, rfl, rfl, ?_, ?_, ?_, ?_⟩
  · show (add_sample sb SAMPLE_ERROR).data[sb.data_count]? = some 0
    rw [g0]
    norm_num [SAMPLE_ERROR]
  · show (add_sample sb SAMPLE_ERROR).data[sb.data_count + 1]? = some 0
    rw [g1]
    norm_num [SAMPLE_ERROR]
  · show (add_sample sb SAMPLE_ERROR).data[sb.data_count + 2]? = some 0
    rw [g2]
    norm_num [SAMPLE_ERROR]
  · show (add_sample sb SAMPLE_ERROR).data[sb.data_count + 3]? = some 0x80
    rw [g3]
    norm_num [SAMPLE_ERROR]

/-- Claim C5: at every reachable fill level (any data_count with room for the
one appended slot, in particular capacity minus 4), recording an error
appends exactly one sentinel record carrying its error code in the side
field and then reports exactly once, unconditionally, leaving the buffer
fill count at zero. -/
theorem claim_C5_error_record_unconditional_flush
    (s : Hx71x.State) (t : Ads1220.State) (code code2 : Nat)
    (h1 : s.sb.data_count + 4 ≤ s.sb.data.length)
    (h2 : t.sb.data_count + 4 ≤ t.sb.data.length) :
    ((Hx71x.send_error s code).2.1.length = 1 ∧
     (Hx71x.send_error s code).1.sb.data_count = 0 ∧
     ∀ r ∈ (Hx71x.send_error s code).2.1,
        r.possible_overflows = code ∧
        r.data_count = s.sb.data_count + 4 ∧
        r.data[s.sb.data_count]? = some 0 ∧
        r.data[s.sb.data_count + 1]? = some 0 ∧
        r.data[s.sb.data_count + 2]? = some 0 ∧
        r.data[s.sb.data_count + 3]? = some 0x80) ∧
    ((Ads1220.send_error t code2).2.1.length = 1 ∧
     (Ads1220.send_error t code2).1.sb.data_count = 0 ∧
     ∀ r ∈ (Ads1220.send_error t code2).2.1,
        r.possible_overflows = code2 ∧
        r.data_count = t.sb.data_count + 4 ∧
        r.data[t.sb.data_count]? = some 0 ∧
        r.data[t.sb.data_count + 1]? = some 0 ∧
        r.data[t.sb.data_count + 2]? = some 0 ∧
        r.data[t.sb.data_count + 3]? = some 0x80) := by
  obtain ⟨a0, a1, a2, a3, a4, a5, a6⟩ := send_error_sb_spec s.sb code h1
  obtain ⟨b0, b1, b2, b3, b4, b5, b6⟩ := send_error_sb_spec t.sb code2 h2
  refine ⟨⟨rfl, a0, ?_⟩, ⟨rfl, b0, ?_⟩⟩
  · intro r hr
    have hr2 : r = (send_error_sb s.sb code).2 := by
      simpa [Hx71x.send_error] using hr
    subst hr2
    exact ⟨a1, a2, a3, a4, a5, a6⟩
  · intro r hr
    have hr2 : r = (send_error_sb t.sb code2).2 := by
      simpa [Ads1220.send_error] using hr
    subst hr2
    exact ⟨b1, b2, b3, b4, b5, b6⟩

/-- Witness for claim C5 at a buffer filled to capacity minus 4. -/
theorem claim_C5_witness :
    hxS4.sb.data_count + 4 ≤ hxS4.sb.data.length ∧
    (Hx71x.send_error hxS4 2).2.1.length = 1 ∧
    (Hx71x.send_error hxS4 2).1.sb.data_count = 0 ∧
    (Ads1220.send_error adsS4 1).1.sb.data_count = 0 :=
  ⟨by decide,
   (claim_C5_error_record_unconditional_flush hxS4 adsS4 2 1
      (by decide) (by decide)).1.1,
   (claim_C5_error_record_unconditional_flush hxS4 adsS4 2 1
      (by decide) (by decide)).1.2.1,
   (claim_C5_error_record_unconditional_flush hxS4 adsS4 2 1
      (by decide) (by decide)).2.2.1⟩

end Klipper

namespace Klipper

/-! ### Claim C6 -/

/-- The buffer invariant maintained by the poll pipeline: the fill count is a
multiple of 4 and one more 4-byte sample always fits (append-ready). -/
def BufInv (sb : SensorBulk) : Prop :=
  sb.data_count % 4 = 0 ∧ sb.data_count + 4 ≤ sb.data.length

instance decBufInv (sb : SensorBulk) : Decidable (BufInv sb) := by
  unfold BufInv
  infer_instance

lemma send_error_sb_BufInv (sb : SensorBulk) (code : Nat) (h : BufInv sb) :
    BufInv (send_error_sb sb code).1 := by
  unfold BufInv at h
  unfold BufInv send_error_sb add_sample sensor_bulk_report BYTES_PER_SAMPLE
  simp only [List.length_set]
  refine ⟨by norm_num, by omega⟩

lemma add_sample_data_count (sb : SensorBulk) (counts : Nat) :
    (add_sample sb counts).data_count = sb.data_count + 4 := rfl

lemma add_sample_length (sb : SensorBulk) (counts : Nat) :
    (add_sample sb counts).data.length = sb.data.length := by
  unfold add_sample
  simp

lemma sensor_bulk_report_fst_length (sb : SensorBulk) :
    (sensor_bulk_report sb).1.data.length = sb.data.length := rfl

lemma flush_add_BufInv (sb : SensorBulk) (counts : Nat) (h : BufInv sb) :
    BufInv (flush_samples (add_sample sb counts)).1 := by
  unfold BufInv at h
  obtain ⟨h4, hle⟩ := h
  unfold BufInv flush_samples BYTES_PER_SAMPLE
  split
  · refine ⟨rfl, ?_⟩
    show (sensor_bulk_report (add_sample sb counts)).1.data_count + 4 ≤
      (sensor_bulk_report (add_sample sb counts)).1.data.length
    rw [sensor_bulk_report_fst_length, add_sample_length]
    have hz : (sensor_bulk_report (add_sample sb counts)).1.data_count = 0 := rfl
    omega
  · rename_i hcond
    rw [add_sample_data_count, add_sample_length] at hcond
    refine ⟨?_, ?_⟩
    · rw [add_sample_data_count]
      omega
    · rw [add_sample_data_count, add_sample_length]
      omega

lemma hx71x_step_BufInv (max : Nat) (s : Hx71x.State) (e : Hx71x.Env)
    (h : BufInv s.sb) : BufInv (Hx71x.read_adc max s e).1.sb := by
  cases hb0 : Hx71x.is_data_ready (e.dout 0) with
  | false => simpa [Hx71x.read_adc, hb0, Hx71x.reschedule_timer] using h
  | true =>
    cases hb25 : Hx71x.is_data_ready (e.dout 25) with
    | true =>
      have h2 := send_error_sb_BufInv s.sb Hx71x.ERROR_READY_AFTER_READ h
      simpa [Hx71x.read_adc, hb0, hb25, Hx71x.send_error] using h2
    | false =>
      by_cases ht : e.elapsed ≥ max
      · have h2 := send_error_sb_BufInv s.sb Hx71x.ERROR_READ_TOO_LONG h
        simpa [Hx71x.read_adc, hb0, hb25, ht, Hx71x.send_error] using h2
      · rw [hx71x_read_adc_ready max s e hb0 hb25 (by omega)]
        by_cases hc : Hx71x.decode (Hx71x.read_bits e.dout) < -0x7FFFFF ∨
            Hx71x.decode (Hx71x.read_bits e.dout) > 0x7FFFFF
        · rw [if_pos hc]
          have h2 := send_error_sb_BufInv s.sb Hx71x.ERROR_OUT_OF_RANGE h
          simpa [Hx71x.send_error] using h2
        · rw [if_neg hc]
          have h2 := flush_add_BufInv s.sb
            (u32ofInt (Hx71x.decode (Hx71x.read_bits e.dout))) h
          simpa [Hx71x.reschedule_timer] using h2

lemma ads1220_step_BufInv (max : Nat) (t : Ads1220.State) (e : Ads1220.Env)
    (h : BufInv t.sb) : BufInv (Ads1220.read_adc max t e).1.sb := by
  cases hb : Ads1220.is_data_ready e.data_ready_pin with
  | false => simpa [Ads1220.read_adc, hb, Ads1220.reschedule_timer] using h
  | true =>
    by_cases ht : e.elapsed ≥ max
    · have h2 := send_error_sb_BufInv t.sb Ads1220.ERROR_READ_TOO_LONG h
      simpa [Ads1220.read_adc, hb, ht, Ads1220.send_error] using h2
    · rw [ads1220_read_adc_ready max t e hb (by omega)]
      by_cases hc : Ads1220.decode (Ads1220.raw_word e) < -0x7FFFFF ∨
          Ads1220.decode (Ads1220.raw_word e) > 0x7FFFFF
      · rw [if_pos hc]
        have h2 := send_error_sb_BufInv t.sb Ads1220.ERROR_OUT_OF_RANGE h
        simpa [Ads1220.send_error] using h2
      · rw [if_neg hc]
        have h2 := flush_add_BufInv t.sb
          (u32ofInt (Ads1220.decode (Ads1220.raw_word e))) h
        simpa [Ads1220.reschedule_timer] using h2

lemma ads1256_step_BufInv (max : Nat) (u : Ads1256.State) (e : Ads1256.Env)
    (h : BufInv u.sb) : BufInv (Ads1256.read_adc max u e).1.sb := by
  cases hb : Ads1256.is_data_ready e.data_ready_pin with
  | false => simpa [Ads1256.read_adc, hb, Ads1256.reschedule_timer] using h
  | true =>
    by_cases ht : e.elapsed ≥ max
    · simpa [Ads1256.read_adc, hb, ht] using h
    · by_cases h1 : Ads1256.decode (Ads1256.raw_word e) = -1
      · simpa [Ads1256.read_adc, hb, ht, h1] using h
      · by_cases h2 : Ads1256.decode (Ads1256.raw_word e) ≥ 0x800000
        · simpa [Ads1256.read_adc, hb, ht, h1, h2] using h
        · have h3 := flush_add_BufInv u.sb
            (u32ofInt (Ads1256.decode (Ads1256.raw_word e))) h
          simpa [Ads1256.read_adc, hb, ht, h1, h2,
                 Ads1256.reschedule_timer] using h3

/-- The list of sensor states the hx71x driver passes through while polling
over the given sequence of environments. -/
def hx71x_states (max : Nat) : Hx71x.State → List Hx71x.Env → List Hx71x.State
  | s, [] => [s]
  | s, e :: es => s :: hx71x_states max ((Hx71x.read_adc max s e).1) es

/-- The list of sensor states the ads1220 driver passes through while polling
over the given sequence of environments. -/
def ads1220_states (max : Nat) :
    Ads1220.State → List Ads1220.Env → List Ads1220.State
  | t, [] => [t]
  | t, e :: es => t :: ads1220_states max ((Ads1220.read_adc max t e).1) es

lemma hx71x_states_BufInv (max : Nat) :
    ∀ (envs : List Hx71x.Env) (s : Hx71x.State), BufInv s.sb →
      ∀ s2 ∈ hx71x_states max s envs, BufInv s2.sb := by
  intro envs
  induction envs with
  | nil =>
    intro s h s2 hs2
    simp [hx71x_states] at hs2
    subst hs2
    exact h
  | cons e es ih =>
    intro s h s2 hs2
    simp only [hx71x_states, List.mem_cons] at hs2
    rcases hs2 with rfl | hs2
    · exact h
    · exact ih _ (hx71x_step_BufInv max s e h) s2 hs2

lemma ads1220_states_BufInv (max : Nat) :
    ∀ (envs : List Ads1220.Env) (t : Ads1220.State), BufInv t.sb →
      ∀ t2 ∈ ads1220_states max t envs, BufInv t2.sb := by
  intro envs
  induction envs with
  | nil =>
    intro t h t2 ht2
    simp [ads1220_states] at ht2
    subst ht2
    exact h
  | cons e es ih =>
    intro t h t2 ht2
    simp only [ads1220_states, List.mem_cons] at ht2
    rcases ht2 with rfl | ht2
    · exact h
    · exact ih _ (ads1220_step_BufInv max t e h) t2 ht2

/-- Claim C6: starting from a reset buffer the poll pipeline keeps the fill
count a multiple of 4 and never lets it exceed the capacity: every state
along every sequence of polls is append-ready (data_count + 4 fits), so no
append writes past capacity, and flush_samples drains the buffer to zero
exactly when one more sample would not fit. -/
theorem claim_C6_buffer_invariant :
    (∀ sb : SensorBulk, 4 ≤ sb.data.length → BufInv (sensor_bulk_reset sb)) ∧
    (∀ (max : Nat) (s : Hx71x.State) (e : Hx71x.Env), BufInv s.sb →
        BufInv (Hx71x.read_adc max s e).1.sb) ∧
    (∀ (max : Nat) (t : Ads1220.State) (e : Ads1220.Env), BufInv t.sb →
        BufInv (Ads1220.read_adc max t e).1.sb) ∧
    (∀ (max : Nat) (u : Ads1256.State) (e : Ads1256.Env), BufInv u.sb →
        BufInv (Ads1256.read_adc max u e).1.sb) ∧
    (∀ (max : Nat) (s : Hx71x.State) (envs : List Hx71x.Env), BufInv s.sb →
        ∀ s2 ∈ hx71x_states max s envs,
          s2.sb.data_count % 4 = 0 ∧ s2.sb.data_count + 4 ≤ s2.sb.data.length) ∧
    (∀ (max : Nat) (t : Ads1220.State) (envs : List Ads1220.Env), BufInv t.sb →
        ∀ t2 ∈ ads1220_states max t envs,
          t2.sb.data_count % 4 = 0 ∧ t2.sb.data_count + 4 ≤ t2.sb.data.length) ∧
    (∀ sb : SensorBulk,
        ((flush_samples sb).2 = [] ↔ sb.data_count + 4 ≤ sb.data.length) ∧
        (sb.data_count + 4 > sb.data.length →
          (flush_samples sb).1.data_count = 0)) := by
  refine ⟨?_, hx71x_step_BufInv, ads1220_step_BufInv, ads1256_step_BufInv,
          ?_, ?_, ?_⟩
  · intro sb h
    exact ⟨by simp [sensor_bulk_reset], by simpa [sensor_bulk_reset] using h⟩
  · intro max s envs h s2 hs2
    exact hx71x_states_BufInv max envs s h s2 hs2
  · intro max t envs h t2 ht2
    exact ads1220_states_BufInv max envs t h t2 ht2
  · intro sb
    unfold flush_samples sensor_bulk_report BYTES_PER_SAMPLE
    by_cases hc : sb.data_count + 4 > sb.data.length
    · rw [if_pos hc]
      refine ⟨?_, fun _ => rfl⟩
      simp
      omega
    · rw [if_neg hc]
      refine ⟨?_, fun hd => absurd hd hc⟩
      simp
      omega

/-- Witness for claim C6: a concrete two-poll run from an empty 8-byte
buffer keeps the invariant at every state along the run. -/
theorem claim_C6_witness :
    BufInv hxS0.sb ∧
    ∀ s2 ∈ hx71x_states 9 hxS0 [hxEnvGood, hxEnvNotReady],
      s2.sb.data_count % 4 = 0 ∧ s2.sb.data_count + 4 ≤ s2.sb.data.length :=
  ⟨by decide,
   claim_C6_buffer_invariant.2.2.2.2.1 9 hxS0 [hxEnvGood, hxEnvNotReady]
     (by decide)⟩

end Klipper
